import Mathlib

/-!
Verification of the tracker lifecycle and frame-reconciliation logic of
`ultralytics/tracker/track.py` (functions `on_predict_start` and
`on_predict_postprocess_end`), as a shallow embedding in Lean.

Modelling choices, all taken from the source:
  * A predictor is the record of the attributes the two functions read or
    write: `trackers` (absent before first initialization, hence `Option`),
    `args.tracker` (the configuration name), `source_type.from_img`,
    `dataset.bs`, `results` and the source images `batch[2]` (already in
    list form; the source wraps a lone image into a list).
  * Python mutation is explicit state passing; a raised exception is the
    `some msg` error component of the returned triple, and since the only
    write to `predictor.trackers` is the final statement of
    `on_predict_start`, every error branch returns the input state.
  * Tracker construction (`TRACKER_MAP[...](args=cfg, frame_rate=30)`)
    allocates a fresh Python object; object identity is modelled by an
    explicit fresh-id counter threaded through `on_predict_start`.
  * Configuration loading (`check_yaml` + `yaml_load`, external glue per
    the design) is a parameter `loadCfg` returning `Except`.
  * The tracker strategies are external; their `update` method is a pure
    function parameter (the design requires it to be pure and synchronous
    from this layer's viewpoint).  A returned track row is numpy row
    `[x, y, x, y, track_id, conf, cls, idx]`: its last column is the
    back-reference index (`tracks[:, -1]`), the rest (`tracks[:, :-1]`)
    is the refined box data written back via `results.update(boxes=...)`.
  * A per-frame result is the list of its detection rows; each row keeps
    its box data plus an opaque `payload` for everything the container
    carries through fancy indexing unchanged.
-/

namespace Trk

/-- Configuration record produced by the external yaml loader:
`tracker_type` plus the strategy-specific parameters (opaque here). -/
structure Cfg where
  tracker_type : String
  params : List (String × Int)
deriving DecidableEq, Repr

/-- The two registered tracker constructors, values of `TRACKER_MAP`. -/
inductive TrackerCtor
  | BYTETracker
  | BOTSORT
deriving DecidableEq, Repr

/-- TRACKER_MAP = {'bytetrack': BYTETracker, 'botsort': BOTSORT}. -/
def TRACKER_MAP : List (String × TrackerCtor) :=
  [("bytetrack", TrackerCtor.BYTETracker), ("botsort", TrackerCtor.BOTSORT)]

/-- A constructed tracker instance: which constructor built it, the
configuration and frame rate it was seeded with, and `oid`, the object
identity of the freshly allocated Python object. -/
structure TrackerInst where
  ctor : TrackerCtor
  args : Cfg
  frame_rate : Nat
  oid : Nat
deriving DecidableEq, Repr

/-- One detection row of a per-frame result: its box data and an opaque
payload standing for the rest of the row, preserved by re-indexing. -/
structure DetRow where
  box : List Int
  payload : Nat
deriving DecidableEq, Repr

/-- One row of the array a tracker `update` returns: the refined box data
`tracks[:, :-1]` and the back-reference index `tracks[:, -1]`. -/
structure TrackRow where
  box : List Int
  idx : Nat
deriving DecidableEq, Repr

/-- Source images are opaque. -/
abbrev Image := Nat

/-- The predictor attributes read or written by the two callbacks. -/
structure Predictor where
  trackers : Option (List TrackerInst)
  args_tracker : String
  from_img : Bool
  bs : Nat
  results : List (List DetRow)
  im0s : List Image
deriving DecidableEq, Repr

/-- The shared-stream condition, written once in each callback in the
source: `predictor.source_type.from_img and bs >= 1 and not multiple_videos`. -/
def batchOfFrames (from_img : Bool) (bs : Nat) (multiple_videos : Bool) : Bool :=
  from_img && decide (1 ≤ bs) && !multiple_videos

/-- `TRACKER_MAP[cfg.tracker_type](args=cfg, frame_rate=30)` allocating a
fresh object id.  The lookup default is unreachable: construction only
happens after the membership assertion has passed. -/
def mkTrackerInst (cfg : Cfg) (oid : Nat) : TrackerInst :=
  { ctor := (TRACKER_MAP.lookup cfg.tracker_type).getD TrackerCtor.BYTETracker
    args := cfg
    frame_rate := 30
    oid := oid }

/-- The assertion message of `on_predict_start` (quotes elided):
f-string naming the supported set and the offending value. -/
def assertMsg (t : String) : String :=
  "Only support bytetrack and botsort for now, but got " ++ t

/-- `on_predict_start(predictor, persist, multiple_videos)`.  Returns the
predictor state after the call, the fresh-id counter after the call, and
`some msg` when the call raised.  The source assigns `predictor.trackers`
only in its final statement, so every raising branch leaves the state
untouched. -/
def on_predict_start (loadCfg : String → Except String Cfg)
    (p : Predictor) (nid : Nat) (persist : Bool) (multiple_videos : Bool) :
    Predictor × Nat × Option String :=
  if p.trackers.isSome && persist then (p, nid, none)
  else
    match loadCfg p.args_tracker with
    | Except.error e => (p, nid, some e)
    | Except.ok cfg =>
      if cfg.tracker_type = "bytetrack" ∨ cfg.tracker_type = "botsort" then
        if batchOfFrames p.from_img p.bs multiple_videos then
          ({ p with trackers := some [mkTrackerInst cfg nid] }, nid + 1, none)
        else
          let ts := (List.range p.bs).map fun k => mkTrackerInst cfg (nid + k)
          ({ p with trackers := some ts }, nid + p.bs, none)
      else (p, nid, some (assertMsg cfg.tracker_type))

/-- Placeholder detection row for the total model of fancy indexing; every
theorem about reconciliation carries the in-bounds hypothesis under which
it is never consulted. -/
def defaultDetRow : DetRow := { box := [], payload := 0 }

/-- Placeholder tracker instance for total list indexing. -/
def defaultTracker : TrackerInst :=
  { ctor := TrackerCtor.BYTETracker
    args := { tracker_type := "bytetrack", params := [] }
    frame_rate := 30
    oid := 0 }

/-- `predictor.results[i][idx]`: numpy-style fancy indexing, selecting the
rows named by `idx` in that order. -/
def selectIdx (r : List DetRow) (idx : List Nat) : List DetRow :=
  idx.map fun j => r.getD j defaultDetRow

/-- `results.update(boxes=...)`: overwrite the box data of each row. -/
def updateBoxes (r : List DetRow) (boxes : List (List Int)) : List DetRow :=
  List.zipWith (fun e b => { e with box := b }) r boxes

/-- The body of the per-slot loop of `on_predict_postprocess_end`, for one
slot, given the `update` function of the tracker instance routed to it. -/
def reconcileSlot (upd : List DetRow → Image → List TrackRow)
    (result : List DetRow) (img : Image) : List DetRow :=
  let det := result
  if det.length = 0 then result
  else
    let tracks := upd det img
    if tracks.length = 0 then result
    else
      updateBoxes (selectIdx result (tracks.map TrackRow.idx))
        (tracks.map TrackRow.box)

/-- The tracker instance routed to slot `i`:
`predictor.trackers[0]` under the shared condition, else
`predictor.trackers[i]`. -/
def trackerFor (p : Predictor) (multiple_videos : Bool) (i : Nat) : TrackerInst :=
  (p.trackers.getD []).getD
    (if batchOfFrames p.from_img p.bs multiple_videos then 0 else i)
    defaultTracker

/-- `on_predict_postprocess_end(predictor, multiple_videos)`: for each slot
`i` in `range(bs)` rewrite `results[i]` through its routed tracker.  `upd`
is the (pure) update method, applied to the routed instance. -/
def on_predict_postprocess_end
    (upd : TrackerInst → List DetRow → Image → List TrackRow)
    (p : Predictor) (multiple_videos : Bool) : Predictor :=
  { p with results :=
      p.results.mapIdx fun i r =>
        if i < p.bs then
          reconcileSlot (upd (trackerFor p multiple_videos i)) r (p.im0s.getD i 0)
        else r }

def egCfgB : Cfg := { tracker_type := "bytetrack", params := [] }

def egCfgBad : Cfg := { tracker_type := "deepsort", params := [] }

def egLoadOk : String → Except String Cfg := fun _ => Except.ok egCfgB

def egLoadBad : String → Except String Cfg := fun _ => Except.ok egCfgBad

def egP3 : Predictor :=
  { trackers := none, args_tracker := "botsort.yaml", from_img := true, bs := 3,
    results := [], im0s := [] }

def egT0 : TrackerInst :=
  { ctor := TrackerCtor.BYTETracker, args := egCfgB, frame_rate := 30, oid := 0 }

def egPT : Predictor := { egP3 with trackers := some [egT0] }

def egRes : List DetRow := [⟨[1,1],10⟩, ⟨[2,2],11⟩, ⟨[3,3],12⟩]

def egUpd : List DetRow → Image → List TrackRow :=
  fun _ _ => [⟨[30,30,7],2⟩, ⟨[10,10,8],0⟩]

def egPR : Predictor :=
  { trackers := some [egT0], args_tracker := "x", from_img := true, bs := 2,
    results := [[], egRes], im0s := [4, 5] }

def egUpdT : TrackerInst → List DetRow → Image → List TrackRow := fun _ _ _ => []

def egUpd2 : TrackerInst → List DetRow → Image → List TrackRow :=
  fun _ _ _ => [⟨[30,30,7],2⟩, ⟨[10,10,8],0⟩]

/-- List indexing through `mapIdx`: the entry at `i` is the function applied
at `i` to the original entry. -/
theorem get?_mapIdx {α β : Type} (l : List α) (f : Nat → α → β) (i : Nat) :
    (l.mapIdx f).get? i = (l.get? i).map (f i) := by
  induction l generalizing f i with
  | nil => simp
  | cons a l ih =>
    cases i with
    | zero => simp [List.mapIdx_cons]
    | succ n => simp [List.mapIdx_cons, ih]

/-- The slot `i` entry of the post-processed results, as a map over the
pre-call entry. -/
theorem postprocess_results_get (upd : TrackerInst → List DetRow → Image → List TrackRow)
    (p : Predictor) (mv : Bool) (i : Nat) :
    (on_predict_postprocess_end upd p mv).results.get? i =
      (p.results.get? i).map fun r =>
        if i < p.bs then
          reconcileSlot (upd (trackerFor p mv i)) r (p.im0s.getD i 0)
        else r := by
  simp [on_predict_postprocess_end, get?_mapIdx]

/-- A slot whose tracker update returns no tracks keeps its result. -/
theorem reconcileSlot_no_tracks (upd : List DetRow → Image → List TrackRow)
    (r : List DetRow) (img : Image) (h : upd r img = []) :
    reconcileSlot upd r img = r := by
  simp only [reconcileSlot]
  split
  · rfl
  · simp [h]

/-- Shape of a construction-path run of `on_predict_start` for a supported
tracker type. -/
theorem on_predict_start_ok (loadCfg : String → Except String Cfg)
    (p : Predictor) (nid : Nat) (persist mv : Bool) (cfg : Cfg)
    (hnp : (p.trackers.isSome && persist) = false)
    (hload : loadCfg p.args_tracker = Except.ok cfg)
    (hsup : cfg.tracker_type = "bytetrack" ∨ cfg.tracker_type = "botsort") :
    on_predict_start loadCfg p nid persist mv =
      if batchOfFrames p.from_img p.bs mv then
        ({ p with trackers := some [mkTrackerInst cfg nid] }, nid + 1, none)
      else
        ({ p with trackers := some ((List.range p.bs).map
            fun k => mkTrackerInst cfg (nid + k)) }, nid + p.bs, none) := by
  unfold on_predict_start
  rw [hnp, hload]
  simp only [Bool.false_eq_true, if_false, if_pos hsup]

/-- Every successful construction-path run stores a set whose members are
all built from the one loaded configuration, with frame rate 30 and fresh
object ids. -/
theorem on_predict_start_new_set (loadCfg : String → Except String Cfg)
    (p : Predictor) (nid : Nat) (persist mv : Bool)
    (p' : Predictor) (nid' : Nat) (ts' : List TrackerInst)
    (hnp : (p.trackers.isSome && persist) = false)
    (hok : on_predict_start loadCfg p nid persist mv = (p', nid', none))
    (hts : p'.trackers = some ts') :
    ∃ cfg, loadCfg p.args_tracker = Except.ok cfg ∧
      ∀ t ∈ ts', t.args = cfg ∧ t.frame_rate = 30 ∧ nid ≤ t.oid := by
  unfold on_predict_start at hok
  rw [hnp] at hok
  simp only [Bool.false_eq_true, if_false] at hok
  split at hok
  next e hl => simp at hok
  next cfg hl =>
    refine ⟨cfg, hl, ?_⟩
    split at hok
    · split at hok
      · simp only [Prod.mk.injEq] at hok
        obtain ⟨hp', -, -⟩ := hok
        rw [← hp'] at hts
        simp only [Option.some.inj hts.symm]
        intro t ht
        simp only [List.mem_singleton] at ht
        subst ht
        exact ⟨rfl, rfl, Nat.le_refl nid⟩
      · simp only [Prod.mk.injEq] at hok
        obtain ⟨hp', -, -⟩ := hok
        rw [← hp'] at hts
        simp only [Option.some.inj hts.symm]
        intro t ht
        simp only [List.mem_map, List.mem_range] at ht
        obtain ⟨k, -, hk⟩ := ht
        subst hk
        exact ⟨rfl, rfl, Nat.le_add_right nid k⟩
    · simp at hok

/-- C1: stream assignment.  When initialization takes the construction path
and the configuration loads with a supported tracker type, the stored tracker
set has exactly one instance when the source yields single in-memory images,
the batch size is at least one and `multiple_videos` is false, and exactly
`bs` instances (one per slot) in every other case. -/
theorem C1_assignment_mode_count (loadCfg : String → Except String Cfg)
    (p : Predictor) (nid : Nat) (persist mv : Bool) (cfg : Cfg)
    (hnp : (p.trackers.isSome && persist) = false)
    (hload : loadCfg p.args_tracker = Except.ok cfg)
    (hsup : cfg.tracker_type = "bytetrack" ∨ cfg.tracker_type = "botsort") :
    ∃ ts : List TrackerInst,
      (on_predict_start loadCfg p nid persist mv).1.trackers = some ts ∧
      ts.length = if p.from_img && decide (1 ≤ p.bs) && !mv then 1 else p.bs := by
  rw [on_predict_start_ok loadCfg p nid persist mv cfg hnp hload hsup]
  by_cases hb : batchOfFrames p.from_img p.bs mv = true
  · refine ⟨[mkTrackerInst cfg nid], ?_, ?_⟩
    · simp [hb]
    · unfold batchOfFrames at hb
      simp [hb]
  · refine ⟨(List.range p.bs).map fun k => mkTrackerInst cfg (nid + k), ?_, ?_⟩
    · simp [hb]
    · unfold batchOfFrames at hb
      simp only [List.length_map, List.length_range]
      rw [if_neg hb]

/-- Witness for C1 at a concrete single-image predictor with batch size 3. -/
theorem C1_witness :
    (∃ ts : List TrackerInst,
      (on_predict_start egLoadOk egP3 0 false false).1.trackers = some ts ∧
      ts.length = if egP3.from_img && decide (1 ≤ egP3.bs) && !false then 1 else egP3.bs) ∧
    (∃ ts : List TrackerInst,
      (on_predict_start egLoadOk egP3 0 false true).1.trackers = some ts ∧
      ts.length = if egP3.from_img && decide (1 ≤ egP3.bs) && !true then 1 else egP3.bs) :=
  ⟨C1_assignment_mode_count egLoadOk egP3 0 false false egCfgB rfl rfl (Or.inl rfl),
   C1_assignment_mode_count egLoadOk egP3 0 false true egCfgB rfl rfl (Or.inl rfl)⟩

/-- C2: reconciliation content and order.  For a slot with non-empty
detections whose tracker returns a non-empty track list with in-bounds
back-references, the new result is exactly the map over the tracks, in
tracker output order, of the referenced original detection with its box
overwritten by the track's refined box; its length is the track count, so
every unreferenced detection is absent. -/
theorem C2_reconcile_content (upd : List DetRow → Image → List TrackRow)
    (result : List DetRow) (img : Image)
    (hne : result ≠ []) (hkne : upd result img ≠ [])
    (hidx : ∀ t ∈ upd result img, t.idx < result.length) :
    reconcileSlot upd result img =
      (upd result img).map
        (fun t => { result.getD t.idx defaultDetRow with box := t.box }) ∧
    (reconcileSlot upd result img).length = (upd result img).length := by
  have hL : ¬ result.length = 0 := by simpa [List.length_eq_zero] using hne
  have hK : ¬ (upd result img).length = 0 := by
    simpa [List.length_eq_zero] using hkne
  have hmain : reconcileSlot upd result img =
      (upd result img).map
        (fun t => { result.getD t.idx defaultDetRow with box := t.box }) := by
    simp only [reconcileSlot, if_neg hL, if_neg hK]
    unfold updateBoxes selectIdx
    rw [List.map_map, List.zipWith_map, List.zipWith_same]
    rfl
  exact ⟨hmain, by rw [hmain, List.length_map]⟩

/-- Witness for C2: tracks referencing indices 2 and 0 out of 3 detections. -/
theorem C2_witness :
    reconcileSlot egUpd egRes 0 =
      (egUpd egRes 0).map
        (fun t => { egRes.getD t.idx defaultDetRow with box := t.box }) ∧
    (reconcileSlot egUpd egRes 0).length = (egUpd egRes 0).length :=
  C2_reconcile_content egUpd egRes 0 (by decide) (by decide) (by decide)

/-- C3: unsupported tracker type.  When the loaded configuration names a
tracker type outside the supported set, initialization raises the assertion
message naming the supported set and the offending value, the predictor is
returned unchanged, and the fresh-id counter is unchanged: zero tracker
instances were constructed. -/
theorem C3_unsupported_fails (loadCfg : String → Except String Cfg)
    (p : Predictor) (nid : Nat) (persist mv : Bool) (cfg : Cfg)
    (hnp : (p.trackers.isSome && persist) = false)
    (hload : loadCfg p.args_tracker = Except.ok cfg)
    (hbad : ¬(cfg.tracker_type = "bytetrack" ∨ cfg.tracker_type = "botsort")) :
    on_predict_start loadCfg p nid persist mv =
      (p, nid,
        some ("Only support bytetrack and botsort for now, but got "
          ++ cfg.tracker_type)) := by
  unfold on_predict_start
  rw [hnp, hload]
  simp only [Bool.false_eq_true, if_false, if_neg hbad]
  rfl

/-- Witness for C3 at a configuration naming the unsupported type deepsort. -/
theorem C3_witness :
    on_predict_start egLoadBad egP3 0 false false =
      (egP3, 0,
        some ("Only support bytetrack and botsort for now, but got "
          ++ egCfgBad.tracker_type)) :=
  C3_unsupported_fails egLoadBad egP3 0 false false egCfgBad rfl rfl (by decide)

/-- C4: idempotent re-entry.  When a tracker set already exists and
`persist` is true, initialization is a no-op independent of the
configuration loader, and a second persisting call leaves the predictor,
and hence the identical tracker-instance set, unchanged. -/
theorem C4_persist_idempotent (loadCfg loadCfg2 : String → Except String Cfg)
    (p : Predictor) (nid nid2 : Nat) (mv mv2 : Bool) (ts : List TrackerInst)
    (h : p.trackers = some ts) :
    on_predict_start loadCfg p nid true mv = (p, nid, none) ∧
    (on_predict_start loadCfg2
        (on_predict_start loadCfg p nid true mv).1 nid2 true mv2).1 = p := by
  have h1 : on_predict_start loadCfg p nid true mv = (p, nid, none) := by
    unfold on_predict_start
    rw [if_pos (by simp [h])]
  exact ⟨h1, by rw [h1]; unfold on_predict_start; rw [if_pos (by simp [h])]⟩

/-- Witness for C4 at a predictor that already owns a tracker set. -/
theorem C4_witness :
    on_predict_start egLoadOk egPT 5 true false = (egPT, 5, none) ∧
    (on_predict_start egLoadBad
        (on_predict_start egLoadOk egPT 5 true false).1 7 true true).1 = egPT :=
  C4_persist_idempotent egLoadOk egLoadBad egPT 5 7 false true [egT0] rfl

/-- C5: replacement.  A successful initialization call with `persist` set
to false replaces the tracker set: no previously stored instance (its
object id predating the call's fresh-id counter) is a member of the newly
stored set. -/
theorem C5_replacement (loadCfg : String → Except String Cfg)
    (p : Predictor) (nid : Nat) (mv : Bool)
    (p' : Predictor) (nid' : Nat) (ts ts' : List TrackerInst) (t : TrackerInst)
    (hok : on_predict_start loadCfg p nid false mv = (p', nid', none))
    (hold : p.trackers = some ts) (hmem : t ∈ ts) (hfresh : t.oid < nid)
    (hnew : p'.trackers = some ts') :
    t ∉ ts' := by
  intro hcontra
  obtain ⟨cfg, -, hall⟩ :=
    on_predict_start_new_set loadCfg p nid false mv p' nid' ts'
      (by simp) hok hnew
  exact absurd (hall t hcontra).2.2 (Nat.not_le.mpr hfresh)

/-- Witness for C5: the old instance is not in the rebuilt set. -/
theorem C5_witness : egT0 ∉ [mkTrackerInst egCfgB 1] :=
  C5_replacement egLoadOk egPT 1 false
    ({ egPT with trackers := some [mkTrackerInst egCfgB 1] }) 2
    [egT0] [mkTrackerInst egCfgB 1] egT0 rfl rfl (by simp) (by decide) rfl

/-- C6: initialization atomicity.  Whenever initialization raises, the
predictor state is unchanged from its pre-call state and the fresh-id
counter is unchanged, so no partially built tracker set is ever visible. -/
theorem C6_atomic_failure (loadCfg : String → Except String Cfg)
    (p : Predictor) (nid : Nat) (persist mv : Bool) (e : String)
    (herr : (on_predict_start loadCfg p nid persist mv).2.2 = some e) :
    (on_predict_start loadCfg p nid persist mv).1 = p ∧
    (on_predict_start loadCfg p nid persist mv).2.1 = nid := by
  unfold on_predict_start at herr ⊢
  split at herr
  · simp at herr
  · split at herr
    next e2 hl => exact ⟨by split <;> rfl, by split <;> rfl⟩
    next cfg hl =>
      split at herr
      · split at herr <;> simp at herr
      · next hs =>
          simp only [if_neg hs]
          exact ⟨by split <;> rfl, by split <;> rfl⟩

/-- Witness for C6 at a failing unsupported-type initialization. -/
theorem C6_witness :
    (on_predict_start egLoadBad egP3 0 false false).1 = egP3 ∧
    (on_predict_start egLoadBad egP3 0 false false).2.1 = 0 :=
  C6_atomic_failure egLoadBad egP3 0 false false
    ("Only support bytetrack and botsort for now, but got deepsort") rfl

/-- C7: empty-set no-ops.  For any slot of the batch, if the slot's
detection list is empty the slot's result is left identical to its
pre-call state (and the conclusion holds for every `upd`, i.e. no update
call is needed), and if the routed tracker's update returns zero tracks
the slot's result is likewise unchanged; neither case raises. -/
theorem C7_empty_noop (upd : TrackerInst → List DetRow → Image → List TrackRow)
    (p : Predictor) (mv : Bool) (i : Nat) (r : List DetRow)
    (hr : p.results.get? i = some r) :
    (r = [] → (on_predict_postprocess_end upd p mv).results.get? i = some r) ∧
    (upd (trackerFor p mv i) r (p.im0s.getD i 0) = [] →
      (on_predict_postprocess_end upd p mv).results.get? i = some r) := by
  rw [postprocess_results_get, hr]
  constructor
  · intro he
    subst he
    simp [reconcileSlot]
  · intro ht
    simp only [Option.map_some']
    by_cases hib : i < p.bs
    · rw [if_pos hib, reconcileSlot_no_tracks _ _ _ ht]
    · rw [if_neg hib]

/-- Witness for C7 at a two-slot batch whose tracker returns no tracks. -/
theorem C7_witness :
    (egRes = [] →
      (on_predict_postprocess_end egUpdT egPR false).results.get? 1 = some egRes) ∧
    (egUpdT (trackerFor egPR false 1) egRes (egPR.im0s.getD 1 0) = [] →
      (on_predict_postprocess_end egUpdT egPR false).results.get? 1 = some egRes) :=
  C7_empty_noop egUpdT egPR false 1 egRes rfl

/-- C8: per-slot tracker routing.  For every slot `i` inside the batch,
the reconciled result of slot `i` is produced by the update call on
instance 0 when the shared condition (single-image source, batch size at
least one, `multiple_videos` false — the same boolean as at
initialization) holds, and on instance `i` otherwise. -/
theorem C8_routing (upd : TrackerInst → List DetRow → Image → List TrackRow)
    (p : Predictor) (mv : Bool) (i : Nat) (r : List DetRow)
    (hr : p.results.get? i = some r) (hi : i < p.bs) :
    (on_predict_postprocess_end upd p mv).results.get? i =
      some (reconcileSlot
        (upd ((p.trackers.getD []).getD
          (if p.from_img && decide (1 ≤ p.bs) && !mv then 0 else i) defaultTracker))
        r (p.im0s.getD i 0)) := by
  rw [postprocess_results_get, hr]
  simp only [Option.map_some, if_pos hi]
  rfl

/-- Witness for C8 at slot 1 of a concrete two-slot batch. -/
theorem C8_witness :
    (on_predict_postprocess_end egUpd2 egPR false).results.get? 1 =
      some (reconcileSlot
        (egUpd2 ((egPR.trackers.getD []).getD
          (if egPR.from_img && decide (1 ≤ egPR.bs) && !false then 0 else 1)
          defaultTracker))
        egRes (egPR.im0s.getD 1 0)) :=
  C8_routing egUpd2 egPR false 1 egRes rfl (by decide)

/-- C9: uniform seeding.  Every tracker instance stored by one successful
construction-path initialization call carries the same loaded
configuration record as its `args` and frame rate 30. -/
theorem C9_uniform_seeding (loadCfg : String → Except String Cfg)
    (p : Predictor) (nid : Nat) (persist mv : Bool) (cfg : Cfg)
    (p' : Predictor) (nid' : Nat) (ts : List TrackerInst) (t : TrackerInst)
    (hnp : (p.trackers.isSome && persist) = false)
    (hload : loadCfg p.args_tracker = Except.ok cfg)
    (hok : on_predict_start loadCfg p nid persist mv = (p', nid', none))
    (hts : p'.trackers = some ts) (hmem : t ∈ ts) :
    t.args = cfg ∧ t.frame_rate = 30 := by
  obtain ⟨cfg2, hload2, hall⟩ :=
    on_predict_start_new_set loadCfg p nid persist mv p' nid' ts hnp hok hts
  have hc : cfg2 = cfg := by
    rw [hload] at hload2
    exact (Except.ok.inj hload2).symm
  subst hc
  exact ⟨(hall t hmem).1, (hall t hmem).2.1⟩

/-- Witness for C9 at a concrete bytetrack initialization. -/
theorem C9_witness :
    (mkTrackerInst egCfgB 1).args = egCfgB ∧ (mkTrackerInst egCfgB 1).frame_rate = 30 :=
  C9_uniform_seeding egLoadOk egPT 1 false false egCfgB
    ({ egPT with trackers := some [mkTrackerInst egCfgB 1] }) 2
    [mkTrackerInst egCfgB 1] (mkTrackerInst egCfgB 1) rfl rfl rfl rfl (by simp)

/-- C10: reconciliation frame property.  The post-processing pass leaves
the tracker-set container untouched, and every slot whose detection list
is empty or whose routed tracker returns zero tracks keeps its result
unchanged. -/
theorem C10_frame_effect (upd : TrackerInst → List DetRow → Image → List TrackRow)
    (p : Predictor) (mv : Bool) :
    (on_predict_postprocess_end upd p mv).trackers = p.trackers ∧
    (∀ i r, p.results.get? i = some r →
      (r = [] ∨ upd (trackerFor p mv i) r (p.im0s.getD i 0) = []) →
      (on_predict_postprocess_end upd p mv).results.get? i = some r) := by
  refine ⟨rfl, ?_⟩
  intro i r hr hcase
  rw [postprocess_results_get, hr]
  rcases hcase with he | ht
  · subst he
    simp [reconcileSlot]
  · simp only [Option.map_some']
    by_cases hib : i < p.bs
    · rw [if_pos hib, reconcileSlot_no_tracks _ _ _ ht]
    · rw [if_neg hib]

/-- Witness for C10 at a concrete two-slot batch. -/
theorem C10_witness :
    (on_predict_postprocess_end egUpdT egPR false).trackers = egPR.trackers ∧
    (∀ i r, egPR.results.get? i = some r →
      (r = [] ∨ egUpdT (trackerFor egPR false i) r (egPR.im0s.getD i 0) = []) →
      (on_predict_postprocess_end egUpdT egPR false).results.get? i = some r) :=
  C10_frame_effect egUpdT egPR false

end Trk
